import Mathlib

/-!
Shallow embedding of the `DotsWave` point-field animation engine
(canonical TypeScript source: the `DotsWave.tsx` iteration defining
`calculateBoidInfluence`, `calculateDotAppearance`, `DotsGrid` and the
fixed-height `DotsWave` container).

The engine's numeric code uses JavaScript floating point `Math.sin`,
`Math.exp`, `Math.pow` and `Math.PI`.  We embed the arithmetic over an
arbitrary linear ordered field `R` with a floor structure, and package the
transcendental primitives together with the analytic facts they satisfy
(over the reals) in a structure `WaveMath R`.  Every theorem quantifies over
the model, so it holds in particular for the real-number interpretation;
a computable rational model `qWaveMath` lets concrete inputs be evaluated.
-/

/-- Primitive math operations used by the animation code, together with the
analytic facts (true of `Real.sin`, `Real.exp`, `Real.rpow`, `Real.pi`)
that the verification needs. -/
structure WaveMath (R : Type) [LinearOrderedField R] where
  sin : R → R
  exp : R → R
  pow : R → R → R
  pi : R
  abs_sin_le_one : ∀ x, |sin x| ≤ 1
  exp_nonneg : ∀ x, 0 ≤ exp x
  exp_le_one : ∀ x, x ≤ 0 → exp x ≤ 1
  pow_one_left : ∀ e, pow 1 e = 1
  pow_zero_left : ∀ e, 0 < e → pow 0 e = 0
  pow_nonneg : ∀ x e, 0 ≤ x → 0 ≤ pow x e
  pow_le_one : ∀ x e, 0 ≤ x → x ≤ 1 → 0 ≤ e → pow x e ≤ 1

/-- A computable rational interpretation of the primitives, used to evaluate
the embedding at concrete inputs.  (`Real.sin`, `Real.exp`, `Real.rpow` and
`Real.pi` also satisfy all the axioms; see `realWaveMath`.) -/
def qWaveMath : WaveMath ℚ where
  sin := fun _ => 0
  exp := fun _ => 0
  pow := fun x _ => if x = 1 then 1 else 0
  pi := 0
  abs_sin_le_one := by intro x; simp
  exp_nonneg := by intro x; simp
  exp_le_one := by intro x _; simp
  pow_one_left := by intro e; simp
  pow_zero_left := by intro e _; norm_num
  pow_nonneg := by intro x e _; dsimp only; split <;> norm_num
  pow_le_one := by intro x e _ _ _; dsimp only; split <;> norm_num

/-- The real-number interpretation: the intended meaning of the primitives.
Its existence shows the axioms of `WaveMath` are satisfiable by the actual
`Math.sin` / `Math.exp` / `Math.pow` semantics (modulo floating point). -/
noncomputable def realWaveMath : WaveMath ℝ where
  sin := Real.sin
  exp := Real.exp
  pow := fun x e => Real.rpow x e
  pi := Real.pi
  abs_sin_le_one := fun x => Real.abs_sin_le_one x
  exp_nonneg := fun x => le_of_lt (Real.exp_pos x)
  exp_le_one := fun x hx => Real.exp_le_one_iff.mpr hx
  pow_one_left := fun e => Real.one_rpow e
  pow_zero_left := fun e he => Real.zero_rpow (ne_of_gt he)
  pow_nonneg := fun x e hx => Real.rpow_nonneg hx e
  pow_le_one := fun x e hx hx1 he => Real.rpow_le_one hx hx1 he

section Constants

variable (R : Type) [LinearOrderedField R]

-- Constants from the source (`const NAME = ...` at the top of the file).
-- Decimal literals are written as the equal rational fractions.

/-- Source: `const WAVE_SPEED = 1.2` -/
def WAVE_SPEED : R := 6 / 5

/-- Source: `const BASE_AMPLITUDE = 3.6` -/
def BASE_AMPLITUDE : R := 18 / 5

/-- Source: `const CARRIER_FREQ = 0.16` -/
def CARRIER_FREQ : R := 4 / 25

/-- Source: `const BOID_LANES = [-6.0, -2.0, 2.0, 6.0]` (indexing embedded as a
function on the lane index). -/
def BOID_LANES : ℕ → R
  | 0 => -6
  | 1 => -2
  | 2 => 2
  | _ => 6

/-- Source: `const BOID_LANE_PHASES = BOID_LANES.map((_, i) => i * 3.6)` -/
def BOID_LANE_PHASES (i : ℕ) : R := (i : R) * (18 / 5)

/-- Source: `const BOIDS_PER_LANE = 3` -/
def BOIDS_PER_LANE : ℕ := 3

/-- Source: `const BOID_SPACING_X = 20.0` -/
def BOID_SPACING_X : R := 20

/-- Source: `const BOID_SIGMA_X = 5.5` -/
def BOID_SIGMA_X : R := 11 / 2

/-- Source: `const BOID_SIGMA_Y = 1.6` -/
def BOID_SIGMA_Y : R := 8 / 5

/-- Source: `const BOID_AMP = 0.8` -/
def BOID_AMP : R := 4 / 5

/-- Source: `const BOID_RAMP_DURATION = 2.0` -/
def BOID_RAMP_DURATION : R := 2

/-- Source: `const BOID_EDGE_FADE_ZONE = 15.0` -/
def BOID_EDGE_FADE_ZONE : R := 15

/-- Source: `const BOID_LEFT_EDGE = -80` -/
def BOID_LEFT_EDGE : R := -80

/-- Source: `const BOID_RIGHT_EDGE = 80` -/
def BOID_RIGHT_EDGE : R := 80

/-- Source: `const BASE_COLOR = { r: 220 / 255, g: 106 / 255, b: 163 / 255 }` -/
def BASE_COLOR : R × R × R := (220 / 255, 106 / 255, 163 / 255)

/-- Source: `const ACCENT_COLOR = { r: 1.0, g: 0.65, b: 0.18 }` -/
def ACCENT_COLOR : R × R × R := (1, 13 / 20, 9 / 50)

/-- Source: `const FOG_COLOR = { r: 0.06, g: 0.04, b: 0.03 }` -/
def FOG_COLOR : R × R × R := (3 / 50, 1 / 25, 3 / 100)

/-- Source: `const BURN_THRESHOLD = BASE_AMPLITUDE * 0.35` -/
def BURN_THRESHOLD : R := BASE_AMPLITUDE R * (7 / 20)

/-- Source: `const BURN_RANGE = BASE_AMPLITUDE * 0.9` -/
def BURN_RANGE : R := BASE_AMPLITUDE R * (9 / 10)

/-- Source: `const FOG_START = BASE_AMPLITUDE * 0.85` -/
def FOG_START : R := BASE_AMPLITUDE R * (17 / 20)

/-- Source: `const FOG_RANGE = BASE_AMPLITUDE * 0.6` -/
def FOG_RANGE : R := BASE_AMPLITUDE R * (3 / 5)

/-- Source: `const BASE_PIXEL_SIZE = 1.2` -/
def BASE_PIXEL_SIZE : R := 6 / 5

/-- Source: `const SIZE_BOOST = 1.8` -/
def SIZE_BOOST : R := 9 / 5

end Constants

/-- Source: `const INTERNAL_RENDER_HEIGHT = 900` -/
def INTERNAL_RENDER_HEIGHT : ℤ := 900

/-- Source: `const MIN_RECOMMENDED_HEIGHT = 240` -/
def MIN_RECOMMENDED_HEIGHT : ℤ := 240

section RenderSurface

/-- Value of a list of decimal digit characters, most significant first. -/
def digitsValue (ds : List Char) : ℕ :=
  ds.foldl (fun a c => a * 10 + (c.toNat - Char.toNat '0')) 0

/-- Embedding of JavaScript `parseInt(s, 10)`: skip leading whitespace, read
an optional sign, then the longest prefix of decimal digits; `none` models
the `NaN` result when no digit is found. -/
def parseIntJS (s : String) : Option ℤ :=
  let cs := s.data.dropWhile Char.isWhitespace
  let signAndRest : ℤ × List Char :=
    match cs with
    | '-' :: rest => (-1, rest)
    | '+' :: rest => (1, rest)
    | _ => (1, cs)
  let ds := signAndRest.2.takeWhile Char.isDigit
  if ds.isEmpty then none
  else some (signAndRest.1 * (digitsValue ds : ℤ))

/-- Source: `const parsedHeight = parseInt(height, 10) || INTERNAL_RENDER_HEIGHT`.
JavaScript `||` falls through to the right operand when the left is falsy,
i.e. when `parseInt` returned `NaN` (no digits) or `0`. -/
def parsedHeightOf (height : String) : ℤ :=
  match parseIntJS height with
  | none => INTERNAL_RENDER_HEIGHT
  | some 0 => INTERNAL_RENDER_HEIGHT
  | some n => n

/-- Source: `const targetHeight = Math.max(parsedHeight, MIN_RECOMMENDED_HEIGHT)` -/
def targetHeightOf (height : String) : ℤ :=
  max (parsedHeightOf height) MIN_RECOMMENDED_HEIGHT

/-- Source: `const offset = (INTERNAL_RENDER_HEIGHT - targetHeight) / 2`
(JavaScript `/` is real division, so the result lives in `ℚ`). -/
def offsetOf (height : String) : ℚ :=
  ((INTERNAL_RENDER_HEIGHT : ℚ) - (targetHeightOf height : ℚ)) / 2

end RenderSurface

section Lattice

variable {R : Type} [LinearOrderedField R] [FloorRing R]

/-- Source: `const padding = isMobile ? 15 : 30` -/
def latticePadding (isMobile : Bool) : ℤ :=
  if isMobile then 15 else 30

/-- Source: `const heightMultiplier = isMobile ? 0.065 : 0.05` -/
def heightMultiplier (isMobile : Bool) : R :=
  if isMobile then 13 / 200 else 1 / 20

/-- Source: `const width = Math.ceil(viewport.width / spacing) + padding * 2` -/
def gridWidthOf (viewportWidth spacing : R) (isMobile : Bool) : ℤ :=
  Int.ceil (viewportWidth / spacing) + latticePadding isMobile * 2

/-- Source: `const visibleGridHeight = viewport.height * heightMultiplier;`
`const height = Math.ceil(visibleGridHeight / spacing) + padding * 2` -/
def gridHeightOf (viewportHeight spacing : R) (isMobile : Bool) : ℤ :=
  Int.ceil (viewportHeight * heightMultiplier isMobile / spacing) +
    latticePadding isMobile * 2

end Lattice

section BoidModel

variable {R : Type} [LinearOrderedField R] [FloorRing R]

/-- JavaScript number truncation toward zero (used by the `%` operator). -/
def jsTrunc (x : R) : ℤ :=
  if 0 ≤ x then Int.floor x else Int.ceil x

/-- JavaScript `%` on numbers: `a % b = a - b * trunc(a / b)` (remainder with
the sign of the dividend). -/
def jsMod (a b : R) : R :=
  a - b * (jsTrunc (a / b) : R)

/-- Source: `const seed = laneIdx * 73856093 ^ boidIdx * 19349663;` — JavaScript `^`
is 32-bit integer xor and binds looser than `*`; for the lane indices `0..3`
and slot indices `0..2` used by the program both products are far below
`2^31`, so the 32-bit xor agrees with `Nat.xor`. -/
def hashSeed (laneIdx boidIdx : ℕ) : ℕ :=
  Nat.xor (laneIdx * 73856093) (boidIdx * 19349663)

/-- Source: `function hashBoid(laneIdx, boidIdx)`: `x = Math.sin(seed) * 43758.5453;
return x - Math.floor(x)` — the fractional part, in `[0, 1)`. -/
def hashBoid (M : WaveMath R) (laneIdx boidIdx : ℕ) : R :=
  Int.fract (M.sin ((hashSeed laneIdx boidIdx : ℕ) : R) * (437585453 / 10000))

/-- Source: `const drift = Math.sin(time * 0.05) * 2.0;` -/
def boidDrift (M : WaveMath R) (time : R) : R :=
  M.sin (time * (1 / 20)) * 2

/-- Source: `const laneY = BOID_LANES[li] + Math.sin(time * 0.25 + BOID_LANE_PHASES[li]) * 0.8;` -/
def boidLaneY (M : WaveMath R) (time : R) (li : ℕ) : R :=
  BOID_LANES R li + M.sin (time * (1 / 4) + BOID_LANE_PHASES R li) * (4 / 5)

/-- Source: `const boidSpeedVar = 0.8 + boidHash * 0.4;` -/
def boidSpeedVar (M : WaveMath R) (li bi : ℕ) : R :=
  4 / 5 + hashBoid M li bi * (2 / 5)

/-- Source: `const boidPhaseOffset = boidHash * Math.PI * 2;` -/
def boidPhaseOffset (M : WaveMath R) (li bi : ℕ) : R :=
  hashBoid M li bi * M.pi * 2

/-- Source: `const boidSigmaVar = 0.7 + boidHash * 0.6;` -/
def boidSigmaVar (M : WaveMath R) (li bi : ℕ) : R :=
  7 / 10 + hashBoid M li bi * (3 / 5)

/-- Source: `let boidCenterX = -40 + drift + bi * BOID_SPACING_X + time * (WAVE_SPEED
* 12 * boidSpeedVar) + li * 3.0 + boidPhaseOffset;` followed by the wrap
`boidCenterX = ((boidCenterX % 160) + 160) % 160 - 80;`. -/
def boidCenterX (M : WaveMath R) (time : R) (li bi : ℕ) : R :=
  let raw := -40 + boidDrift M time + (bi : R) * BOID_SPACING_X R +
    time * (WAVE_SPEED R * 12 * boidSpeedVar M li bi) + (li : R) * 3 +
    boidPhaseOffset M li bi
  jsMod (jsMod raw 160 + 160) 160 - 80

/-- The `edgeFade` computation: starts at `1.0`, linearly ramped toward `0`
when the wrapped center is inside the outer fade zones. -/
def boidEdgeFade (c : R) : R :=
  if c < BOID_LEFT_EDGE R + BOID_EDGE_FADE_ZONE R then
    max 0 ((c - BOID_LEFT_EDGE R) / BOID_EDGE_FADE_ZONE R)
  else if c > BOID_RIGHT_EDGE R - BOID_EDGE_FADE_ZONE R then
    max 0 ((BOID_RIGHT_EDGE R - c) / BOID_EDGE_FADE_ZONE R)
  else 1

/-- One iteration of the inner loop body of `calculateBoidInfluence`: the
elliptical Gaussian `gx * gy` times the edge fade, for boid `(li, bi)`. -/
def boidTerm (M : WaveMath R) (posX posY time : R) (li bi : ℕ) : R :=
  let c := boidCenterX M time li bi
  let dx := posX - c
  let dy := posY - boidLaneY M time li
  let gx := M.exp (-(dx * dx) /
    (2 * BOID_SIGMA_X R * BOID_SIGMA_X R * boidSigmaVar M li bi))
  let gy := M.exp (-(dy * dy) /
    (2 * BOID_SIGMA_Y R * BOID_SIGMA_Y R * boidSigmaVar M li bi))
  gx * gy * boidEdgeFade c

/-- Source: `function calculateBoidInfluence(posX, posY, time, boidRamp)`: the double
loop accumulating `totalInfluence += gx * gy * edgeFade` over the 4 lanes and
3 slots per lane, returning `BASE_AMPLITUDE * BOID_AMP * totalInfluence *
boidRamp`. -/
def calculateBoidInfluence (M : WaveMath R) (posX posY time boidRamp : R) : R :=
  let totalInfluence := Finset.sum (Finset.range 4) fun li =>
    Finset.sum (Finset.range BOIDS_PER_LANE) fun bi =>
      boidTerm M posX posY time li bi
  BASE_AMPLITUDE R * BOID_AMP R * totalInfluence * boidRamp

/-- Source: `const boidRamp = Math.min(1.0, time / BOID_RAMP_DURATION);` (computed
once per frame in `useFrame`). -/
def boidRampOf (time : R) : R :=
  min 1 (time / BOID_RAMP_DURATION R)

/-- The per-point displacement computed in the `useFrame` loop:
`phase = posX * CARRIER_FREQ - time * WAVE_SPEED`,
`localAmp = BASE_AMPLITUDE * 0.6 + boidInfluence`,
`displacement = Math.sin(phase) * localAmp`. -/
def displacementAt (M : WaveMath R) (posX posY time : R) : R :=
  M.sin (posX * CARRIER_FREQ R - time * WAVE_SPEED R) *
    (BASE_AMPLITUDE R * (3 / 5) +
      calculateBoidInfluence M posX posY time (boidRampOf time))

end BoidModel

section Appearance

variable {R : Type} [LinearOrderedField R]

/-- Source: `const crest = Math.max(0, Math.min(1, (absDisp - BURN_THRESHOLD) / BURN_RANGE));` -/
def crestOf (d : R) : R :=
  max 0 (min 1 ((|d| - BURN_THRESHOLD R) / BURN_RANGE R))

/-- Source: `let fogFactor = Math.max(0, Math.min(1, (absDisp - FOG_START) / FOG_RANGE));`
(the value before the easing reassignment). -/
def fogRawOf (d : R) : R :=
  max 0 (min 1 ((|d| - FOG_START R) / FOG_RANGE R))

/-- Source: `fogFactor = Math.pow(fogFactor, 1.5) * 0.35;` -/
def fogEasedOf (M : WaveMath R) (d : R) : R :=
  M.pow (fogRawOf d) (3 / 2) * (7 / 20)

/-- Source: `function calculateDotAppearance(displacement)`: returns `(r, g, b, size)`
after the crest blend toward the accent color and the fog blend toward the
fog color, with `size = BASE_PIXEL_SIZE * (1 + crest * SIZE_BOOST)`. -/
def calculateDotAppearance (M : WaveMath R) (displacement : R) : R × R × R × R :=
  let crest := crestOf displacement
  let r0 := (BASE_COLOR R).1 * (1 - crest) + (ACCENT_COLOR R).1 * crest
  let g0 := (BASE_COLOR R).2.1 * (1 - crest) + (ACCENT_COLOR R).2.1 * crest
  let b0 := (BASE_COLOR R).2.2 * (1 - crest) + (ACCENT_COLOR R).2.2 * crest
  let fogFactor := fogEasedOf M displacement
  let r := r0 * (1 - fogFactor) + (FOG_COLOR R).1 * fogFactor
  let g := g0 * (1 - fogFactor) + (FOG_COLOR R).2.1 * fogFactor
  let b := b0 * (1 - fogFactor) + (FOG_COLOR R).2.2 * fogFactor
  let size := BASE_PIXEL_SIZE R * (1 + crest * SIZE_BOOST R)
  (r, g, b, size)

end Appearance

section LatticePoints

variable {R : Type} [LinearOrderedField R] [FloorRing R]

/-- Source: `const posX = (x - width / 2) * spacing;` (JavaScript `/` is real
division, so `width / 2` may be fractional). -/
def latticePosX (width : ℤ) (spacing : R) (x : ℕ) : R :=
  ((x : R) - (width : R) / 2) * spacing

/-- The one-time edge taper applied to `posY` at construction:
`halfWidthUnits = (width / 2) * spacing`,
`nx = Math.max(0, Math.min(1, Math.abs(posX) / halfWidthUnits))`,
`spread = 1.0 - Math.pow(nx, taperPower)` with `taperPower = 1.1`,
`scaleY = edgeScale + (1.0 - edgeScale) * spread` with `edgeScale = 0.06`. -/
def latticeScaleY (M : WaveMath R) (width : ℤ) (spacing posX : R) : R :=
  let halfWidthUnits := ((width : R) / 2) * spacing
  let nx := max 0 (min 1 (|posX| / halfWidthUnits))
  let spread := 1 - M.pow nx (11 / 10)
  3 / 50 + (1 - 3 / 50) * spread

/-- The `(posX, posY, 0)` triple pushed for lattice coordinates `(x, y)`:
`posY = (y - height / 2) * spacing` scaled by the edge taper. -/
def latticePoint (M : WaveMath R) (width height : ℤ) (spacing : R)
    (x y : ℕ) : R × R × R :=
  let posX := latticePosX width spacing x
  let posY := ((y : R) - (height : R) / 2) * spacing
  (posX, posY * latticeScaleY M width spacing posX, 0)

/-- The flat position list built by the nested `for (y) { for (x) { ... } }`
construction loop, as a list of `(posX, posY, posZ)` triples in push order. -/
def buildLatticePositions (M : WaveMath R) (viewportWidth viewportHeight spacing : R)
    (isMobile : Bool) : List (R × R × R) :=
  let width := gridWidthOf viewportWidth spacing isMobile
  let height := gridHeightOf viewportHeight spacing isMobile
  (List.range height.toNat).flatMap fun y =>
    (List.range width.toNat).map fun x =>
      latticePoint M width height spacing x y

end LatticePoints

section FrameStep

variable {R : Type} [LinearOrderedField R] [FloorRing R]

/-- One iteration of the per-frame loop body, acting on the flat position
buffer (stride 3): at lattice index `k` (`index = k * 3` in the source) it
reads `posX = positions[index]`, `posY = positions[index + 1]` from the
current buffer and writes the displacement to `positions[index + 2]`. -/
def writeZ (M : WaveMath R) (time : R) (buf : ℕ → R) (k : ℕ) : ℕ → R :=
  Function.update buf (3 * k + 2)
    (displacementAt M (buf (3 * k)) (buf (3 * k + 1)) time)

/-- The whole per-frame update of the position buffer: the nested
`for (y) { for (x) { ... } }` loop visits the lattice indices
`k = y * gridWidth + x` in increasing order `0, 1, ..., gridHeight *
gridWidth - 1`, mutating the buffer in place; embedded as a left fold of
`writeZ` over that index sequence. -/
def frameStepPositions (M : WaveMath R) (time : R) (gridWidth gridHeight : ℕ)
    (buf : ℕ → R) : ℕ → R :=
  (List.range (gridHeight * gridWidth)).foldl (writeZ M time) buf

end FrameStep

section SpecSide

variable {R : Type} [LinearOrderedField R] [FloorRing R]

/-- The boid contribution as the spec phrases it: "the sum over all 12 boid
identities of the elliptical Gaussian influence `gx * gy * edgeFade` scaled
by `baseAmplitude * boidAmp` and the startup ramp `min(1, t / rampDuration)`"
(ramp duration 2).  Stated from the spec's words, to be compared with the
source-embedded `calculateBoidInfluence`. -/
def specBoidContribution (M : WaveMath R) (posX posY t : R) : R :=
  (Finset.sum (Finset.range 4) fun li =>
    Finset.sum (Finset.range 3) fun bi => boidTerm M posX posY t li bi) *
    (BASE_AMPLITUDE R * BOID_AMP R) * min 1 (t / 2)

/-- The per-frame z value as the spec phrases it:
`sin(posX * carrierFreq - t * waveSpeed) * (baseAmplitude * 0.6 +
boidContribution(posX, posY, t))`. -/
def specDisplacement (M : WaveMath R) (posX posY t : R) : R :=
  M.sin (posX * CARRIER_FREQ R - t * WAVE_SPEED R) *
    (BASE_AMPLITUDE R * (3 / 5) + specBoidContribution M posX posY t)

end SpecSide
-- ===========================================================================
-- Theorems
-- ===========================================================================

/-- C1: for every valid input the lattice builder produces
`gridWidth = ceil(viewportWidth / spacing) + 2 * padding` and
`gridHeight = ceil(viewportHeight * heightMultiplier / spacing) + 2 * padding`
with `padding = 30`, `heightMultiplier = 0.05` on desktop and `padding = 15`,
`heightMultiplier = 0.065` on mobile; in particular `spacing = 0.5`, desktop,
viewport `40 x 22.5` gives `gridWidth = 140` and `gridHeight = 63`. -/
theorem gridDims_formula_and_scenario :
    (∀ (vw vh s : ℚ) (m : Bool),
      gridWidthOf vw s m =
        Int.ceil (vw / s) + 2 * (if m then 15 else 30) ∧
      gridHeightOf vh s m =
        Int.ceil (vh * (if m then (13 / 200 : ℚ) else 1 / 20) / s) +
          2 * (if m then 15 else 30)) ∧
    gridWidthOf (40 : ℚ) (1 / 2) false = 140 ∧
    gridHeightOf (45 / 2 : ℚ) (1 / 2) false = 63 := by
  refine ⟨fun vw vh s m => ⟨?_, ?_⟩, ?_, ?_⟩
  · cases m <;> simp [gridWidthOf, latticePadding]
  · cases m <;> simp [gridHeightOf, latticePadding, heightMultiplier]
  · norm_num [gridWidthOf, latticePadding]
  · norm_num [gridHeightOf, latticePadding, heightMultiplier]
    rw [show (63 : ℤ) = 3 + 60 by norm_num]
    congr 1
    rw [Int.ceil_eq_iff]
    norm_num

/-- C2 counterexample: the requested fixed display height `"0px"` parses to
the number `0`, yet the code's `parseInt(height, 10) || INTERNAL_RENDER_HEIGHT`
treats `0` as falsy and falls back to `900`, so `targetHeight = 900`, not
`max(0, 240) = 240` as the claim's formula requires. -/
theorem targetHeight_zero_counterexample :
    parseIntJS "0px" = some 0 ∧
    targetHeightOf "0px" = 900 ∧
    targetHeightOf "0px" ≠ max 0 MIN_RECOMMENDED_HEIGHT := by
  refine ⟨by decide, by decide, by decide⟩

/-- C2 amended: for every requested fixed display height that parses to a
nonzero number `n`, the controller computes `targetHeight = max(n, 240)` and
offset `= (900 - targetHeight) / 2`; in particular `"160px"` yields
`targetHeight = 240` and `offset = 330`. -/
theorem targetHeight_and_offset (s : String) (n : ℤ)
    (hp : parseIntJS s = some n) (hn : n ≠ 0) :
    targetHeightOf s = max n MIN_RECOMMENDED_HEIGHT ∧
    offsetOf s = ((INTERNAL_RENDER_HEIGHT : ℚ) -
      ((max n MIN_RECOMMENDED_HEIGHT : ℤ) : ℚ)) / 2 := by
  have hph : parsedHeightOf s = n := by
    unfold parsedHeightOf
    rw [hp]
    match n, hn with
    | Int.ofNat 0, hn => exact absurd rfl hn
    | Int.ofNat (m + 1), _ => rfl
    | Int.negSucc m, _ => rfl
  have ht : targetHeightOf s = max n MIN_RECOMMENDED_HEIGHT := by
    unfold targetHeightOf
    rw [hph]
  refine ⟨ht, ?_⟩
  unfold offsetOf
  rw [ht]

/-- C2 amended, concrete scenario: `"160px"` is coerced to
`targetHeight = max(160, 240) = 240` and `offset = (900 - 240) / 2 = 330`. -/
theorem targetHeight_and_offset_witness :
    parseIntJS "160px" = some 160 ∧ (160 : ℤ) ≠ 0 ∧
    targetHeightOf "160px" = max 160 MIN_RECOMMENDED_HEIGHT ∧
    targetHeightOf "160px" = 240 ∧
    offsetOf "160px" = 330 :=
  ⟨by decide, by decide,
   (targetHeight_and_offset "160px" 160 (by decide) (by decide)).1,
   by decide,
   by
     unfold offsetOf
     rw [show targetHeightOf "160px" = 240 by decide]
     norm_num [INTERNAL_RENDER_HEIGHT]⟩

/-- C9: a requested display height that parses to no number falls back to the
reference internal render height `900` as the target height. -/
theorem targetHeight_nonnumeric_fallback (s : String)
    (h : parseIntJS s = none) :
    targetHeightOf s = INTERNAL_RENDER_HEIGHT := by
  unfold targetHeightOf parsedHeightOf
  rw [h]
  decide

/-- C9 witness: the non-numeric height `"abc"` yields target height `900`. -/
theorem targetHeight_nonnumeric_fallback_witness :
    parseIntJS "abc" = none ∧ targetHeightOf "abc" = INTERNAL_RENDER_HEIGHT :=
  ⟨by decide, targetHeight_nonnumeric_fallback "abc" (by decide)⟩

section BoidBounds

variable {R : Type} [LinearOrderedField R] [FloorRing R]

theorem hashBoid_nonneg (M : WaveMath R) (li bi : ℕ) : 0 ≤ hashBoid M li bi :=
  Int.fract_nonneg _

theorem boidSigmaVar_pos (M : WaveMath R) (li bi : ℕ) :
    0 < boidSigmaVar M li bi := by
  have h := hashBoid_nonneg M li bi
  have h2 : 0 ≤ hashBoid M li bi * (3 / 5) := mul_nonneg h (by norm_num)
  unfold boidSigmaVar
  linarith

theorem boidEdgeFade_nonneg (c : R) : 0 ≤ boidEdgeFade c := by
  unfold boidEdgeFade
  split_ifs
  · exact le_max_left 0 _
  · exact le_max_left 0 _
  · exact zero_le_one

theorem boidEdgeFade_le_one (c : R) : boidEdgeFade c ≤ 1 := by
  unfold boidEdgeFade
  simp only [BOID_LEFT_EDGE, BOID_RIGHT_EDGE, BOID_EDGE_FADE_ZONE]
  split_ifs with h1 h2
  · refine max_le zero_le_one ?_
    rw [div_le_one (by norm_num : (0 : R) < 15)]
    linarith
  · refine max_le zero_le_one ?_
    rw [div_le_one (by norm_num : (0 : R) < 15)]
    linarith
  · exact le_refl 1

theorem boidTerm_nonneg (M : WaveMath R) (posX posY time : R) (li bi : ℕ) :
    0 ≤ boidTerm M posX posY time li bi :=
  mul_nonneg (mul_nonneg (M.exp_nonneg _) (M.exp_nonneg _))
    (boidEdgeFade_nonneg _)

theorem boidTerm_le_one (M : WaveMath R) (posX posY time : R) (li bi : ℕ) :
    boidTerm M posX posY time li bi ≤ 1 := by
  have hvar := boidSigmaVar_pos M li bi
  have hdenx : 0 < 2 * BOID_SIGMA_X R * BOID_SIGMA_X R * boidSigmaVar M li bi := by
    have h2 : (0 : R) < 2 * BOID_SIGMA_X R * BOID_SIGMA_X R := by
      norm_num [BOID_SIGMA_X]
    exact mul_pos h2 hvar
  have hdeny : 0 < 2 * BOID_SIGMA_Y R * BOID_SIGMA_Y R * boidSigmaVar M li bi := by
    have h2 : (0 : R) < 2 * BOID_SIGMA_Y R * BOID_SIGMA_Y R := by
      norm_num [BOID_SIGMA_Y]
    exact mul_pos h2 hvar
  have hargx : ∀ d : R, -(d * d) /
      (2 * BOID_SIGMA_X R * BOID_SIGMA_X R * boidSigmaVar M li bi) ≤ 0 := by
    intro d
    apply div_nonpos_of_nonpos_of_nonneg (neg_nonpos.mpr (mul_self_nonneg d)) hdenx.le
  have hargy : ∀ d : R, -(d * d) /
      (2 * BOID_SIGMA_Y R * BOID_SIGMA_Y R * boidSigmaVar M li bi) ≤ 0 := by
    intro d
    apply div_nonpos_of_nonpos_of_nonneg (neg_nonpos.mpr (mul_self_nonneg d)) hdeny.le
  unfold boidTerm
  have hgx1 := M.exp_le_one _ (hargx (posX - boidCenterX M time li bi))
  have hgy0 := M.exp_nonneg (-((posY - boidLaneY M time li) * (posY - boidLaneY M time li)) /
    (2 * BOID_SIGMA_Y R * BOID_SIGMA_Y R * boidSigmaVar M li bi))
  have hgy1 := M.exp_le_one _ (hargy (posY - boidLaneY M time li))
  have h1 : M.exp (-((posX - boidCenterX M time li bi) * (posX - boidCenterX M time li bi)) /
      (2 * BOID_SIGMA_X R * BOID_SIGMA_X R * boidSigmaVar M li bi)) *
      M.exp (-((posY - boidLaneY M time li) * (posY - boidLaneY M time li)) /
      (2 * BOID_SIGMA_Y R * BOID_SIGMA_Y R * boidSigmaVar M li bi)) ≤ 1 :=
    mul_le_one₀ hgx1 hgy0 hgy1
  have h0 : 0 ≤ M.exp (-((posX - boidCenterX M time li bi) * (posX - boidCenterX M time li bi)) /
      (2 * BOID_SIGMA_X R * BOID_SIGMA_X R * boidSigmaVar M li bi)) *
      M.exp (-((posY - boidLaneY M time li) * (posY - boidLaneY M time li)) /
      (2 * BOID_SIGMA_Y R * BOID_SIGMA_Y R * boidSigmaVar M li bi)) :=
    mul_nonneg (M.exp_nonneg _) (M.exp_nonneg _)
  exact mul_le_one₀ h1 (boidEdgeFade_nonneg _) (boidEdgeFade_le_one _)

/-- Total influence accumulated over the 4 lanes and 3 boids per lane is
nonnegative. -/
theorem totalInfluence_nonneg (M : WaveMath R) (posX posY time : R) :
    0 ≤ Finset.sum (Finset.range 4) fun li =>
      Finset.sum (Finset.range BOIDS_PER_LANE) fun bi =>
        boidTerm M posX posY time li bi :=
  Finset.sum_nonneg fun li _ =>
    Finset.sum_nonneg fun bi _ => boidTerm_nonneg M posX posY time li bi

/-- Total influence is at most the number of boids, `12`. -/
theorem totalInfluence_le_twelve (M : WaveMath R) (posX posY time : R) :
    (Finset.sum (Finset.range 4) fun li =>
      Finset.sum (Finset.range BOIDS_PER_LANE) fun bi =>
        boidTerm M posX posY time li bi) ≤ 12 := by
  have h1 : ∀ li ∈ Finset.range 4,
      (Finset.sum (Finset.range BOIDS_PER_LANE) fun bi =>
        boidTerm M posX posY time li bi) ≤ 3 := by
    intro li _
    calc (Finset.sum (Finset.range BOIDS_PER_LANE) fun bi =>
        boidTerm M posX posY time li bi)
        ≤ Finset.sum (Finset.range BOIDS_PER_LANE) fun _ => (1 : R) :=
          Finset.sum_le_sum fun bi _ => boidTerm_le_one M posX posY time li bi
      _ = 3 := by simp [BOIDS_PER_LANE]
  calc (Finset.sum (Finset.range 4) fun li =>
      Finset.sum (Finset.range BOIDS_PER_LANE) fun bi =>
        boidTerm M posX posY time li bi)
      ≤ Finset.sum (Finset.range 4) fun _ => (3 : R) := Finset.sum_le_sum h1
    _ = 12 := by simp; norm_num

end BoidBounds

section RampTheorems

variable {R : Type} [LinearOrderedField R] [FloorRing R]

/-- C6: at `t = 0` the startup ramp `min(1, t / rampDuration)` is `0`, and the
boid contribution to the local amplitude is exactly zero for every point. -/
theorem boidContribution_zero_at_start (M : WaveMath R) (posX posY : R) :
    boidRampOf (0 : R) = 0 ∧
    calculateBoidInfluence M posX posY 0 (boidRampOf (0 : R)) = 0 := by
  have h : boidRampOf (0 : R) = 0 := by
    unfold boidRampOf BOID_RAMP_DURATION
    norm_num
  exact ⟨h, by simp [calculateBoidInfluence, h]⟩

theorem boidRampOf_nonneg {t : R} (ht : 0 ≤ t) : 0 ≤ boidRampOf t := by
  unfold boidRampOf BOID_RAMP_DURATION
  have h2 : 0 ≤ t / 2 := by positivity
  exact le_min zero_le_one h2

theorem boidRampOf_le_one (t : R) : boidRampOf t ≤ 1 :=
  min_le_left 1 _

/-- Nonnegativity of the aggregate boid influence for `t ≥ 0` (shared
auxiliary fact). -/
theorem calcBoidInfluence_nonneg (M : WaveMath R) (posX posY t : R)
    (ht : 0 ≤ t) :
    0 ≤ calculateBoidInfluence M posX posY t (boidRampOf t) := by
  have hramp := boidRampOf_nonneg (R := R) ht
  have htot := totalInfluence_nonneg M posX posY t
  have hAB : 0 ≤ BASE_AMPLITUDE R * BOID_AMP R := by
    norm_num [BASE_AMPLITUDE, BOID_AMP]
  unfold calculateBoidInfluence
  exact mul_nonneg (mul_nonneg hAB htot) hramp

/-- C10: for every point position and every time `t ≥ 0` the aggregate boid
contribution is nonnegative, so the local amplitude is at least the baseline
`BASE_AMPLITUDE * 0.6`: boids only ever amplify the carrier. -/
theorem boidInfluence_nonneg (M : WaveMath R) (posX posY t : R) (ht : 0 ≤ t) :
    0 ≤ calculateBoidInfluence M posX posY t (boidRampOf t) ∧
    BASE_AMPLITUDE R * (3 / 5) ≤
      BASE_AMPLITUDE R * (3 / 5) +
        calculateBoidInfluence M posX posY t (boidRampOf t) := by
  have h := calcBoidInfluence_nonneg M posX posY t ht
  exact ⟨h, by linarith⟩

/-- C10 witness at the concrete input `posX = posY = 0`, `t = 0` in the
computable rational model. -/
theorem boidInfluence_nonneg_witness :
    (0 : ℚ) ≤ 0 ∧
    0 ≤ calculateBoidInfluence qWaveMath 0 0 0 (boidRampOf 0) :=
  ⟨le_refl 0, (boidInfluence_nonneg qWaveMath 0 0 0 (le_refl 0)).1⟩

/-- The per-point displacement is bounded by
`BASE_AMPLITUDE * 0.6 + BASE_AMPLITUDE * BOID_AMP * 12` for `t ≥ 0`. -/
theorem displacementAt_bounded (M : WaveMath R) (posX posY t : R) (ht : 0 ≤ t) :
    |displacementAt M posX posY t| ≤
      BASE_AMPLITUDE R * (3 / 5) + BASE_AMPLITUDE R * BOID_AMP R * 12 := by
  have hramp0 := boidRampOf_nonneg (R := R) ht
  have hramp1 := boidRampOf_le_one t
  have htot0 := totalInfluence_nonneg M posX posY t
  have htot12 := totalInfluence_le_twelve M posX posY t
  have hinf0 : 0 ≤ calculateBoidInfluence M posX posY t (boidRampOf t) :=
    calcBoidInfluence_nonneg M posX posY t ht
  have hinf : calculateBoidInfluence M posX posY t (boidRampOf t) ≤
      BASE_AMPLITUDE R * BOID_AMP R * 12 := by
    unfold calculateBoidInfluence
    simp only [BASE_AMPLITUDE, BOID_AMP]
    nlinarith [htot0, htot12, hramp0, hramp1]
  have hamp0 : 0 ≤ BASE_AMPLITUDE R * (3 / 5) +
      calculateBoidInfluence M posX posY t (boidRampOf t) := by
    have : (0 : R) ≤ BASE_AMPLITUDE R * (3 / 5) := by
      norm_num [BASE_AMPLITUDE]
    linarith
  unfold displacementAt
  rw [abs_mul]
  calc |M.sin (posX * CARRIER_FREQ R - t * WAVE_SPEED R)| *
      |BASE_AMPLITUDE R * (3 / 5) +
        calculateBoidInfluence M posX posY t (boidRampOf t)|
      ≤ 1 * |BASE_AMPLITUDE R * (3 / 5) +
        calculateBoidInfluence M posX posY t (boidRampOf t)| :=
        mul_le_mul_of_nonneg_right (M.abs_sin_le_one _) (abs_nonneg _)
    _ = BASE_AMPLITUDE R * (3 / 5) +
        calculateBoidInfluence M posX posY t (boidRampOf t) := by
        rw [one_mul, abs_of_nonneg hamp0]
    _ ≤ BASE_AMPLITUDE R * (3 / 5) + BASE_AMPLITUDE R * BOID_AMP R * 12 := by
        linarith

end RampTheorems

section FrameTheorems

variable {R : Type} [LinearOrderedField R] [FloorRing R]

/-- Writes performed by the frame fold only touch flat indices of the form
`3 * k + 2` with `k` in the visited index list; every other buffer entry is
preserved. -/
theorem foldl_writeZ_preserves (M : WaveMath R) (time : R) (l : List ℕ)
    (buf : ℕ → R) (i : ℕ) (hi : ∀ k ∈ l, 3 * k + 2 ≠ i) :
    l.foldl (writeZ M time) buf i = buf i := by
  induction l generalizing buf with
  | nil => rfl
  | cons a l ih =>
    rw [List.foldl_cons,
      ih (writeZ M time buf a) (fun k hk => hi k (List.mem_cons_of_mem a hk))]
    unfold writeZ
    exact Function.update_noteq (Ne.symm (hi a (List.mem_cons_self a l))) _ _

/-- The value the frame fold leaves at flat index `3 * k + 2` (for a visited
lattice index `k`) is the displacement computed from the original `posX` and
`posY` entries of the buffer. -/
theorem foldl_writeZ_z (M : WaveMath R) (time : R) (l : List ℕ)
    (buf : ℕ → R) (k : ℕ) (hnd : l.Nodup) (hk : k ∈ l) :
    l.foldl (writeZ M time) buf (3 * k + 2) =
      displacementAt M (buf (3 * k)) (buf (3 * k + 1)) time := by
  induction l generalizing buf with
  | nil => cases hk
  | cons a l ih =>
    rw [List.foldl_cons]
    rcases List.mem_cons.mp hk with h | h
    · subst h
      have hnotin : k ∉ l := (List.nodup_cons.mp hnd).1
      have hne : ∀ j ∈ l, 3 * j + 2 ≠ 3 * k + 2 := by
        intro j hj
        have hja : j ≠ k := fun hEq => hnotin (hEq ▸ hj)
        omega
      rw [foldl_writeZ_preserves M time l _ _ hne]
      unfold writeZ
      rw [Function.update_same]
    · have hres := ih (writeZ M time buf a) (List.Nodup.of_cons hnd) h
      rw [hres]
      unfold writeZ
      rw [Function.update_noteq (by omega : (3 * k : ℕ) ≠ 3 * a + 2),
        Function.update_noteq (by omega : (3 * k + 1 : ℕ) ≠ 3 * a + 2)]

/-- C8: the per-frame animation step writes only the z slots of the position
buffer; the x and y components assigned at lattice construction (every flat
index congruent to 0 or 1 mod 3) are never modified, for any time. -/
theorem frameStep_preserves_xy (M : WaveMath R) (time : R)
    (gridWidth gridHeight : ℕ) (buf : ℕ → R) (i : ℕ)
    (hi : i % 3 = 0 ∨ i % 3 = 1) :
    frameStepPositions M time gridWidth gridHeight buf i = buf i := by
  unfold frameStepPositions
  exact foldl_writeZ_preserves M time _ buf i (fun k _ => by omega)

/-- C8 witness: with a constant buffer over the rationals, the x entry at
flat index 0 is unchanged by a frame step. -/
theorem frameStep_preserves_xy_witness :
    ((0 : ℕ) % 3 = 0 ∨ (0 : ℕ) % 3 = 1) ∧
    frameStepPositions qWaveMath 1 2 2 (fun _ => (5 : ℚ)) 0 = 5 :=
  ⟨Or.inl rfl,
   frameStep_preserves_xy qWaveMath 1 2 2 (fun _ => (5 : ℚ)) 0 (Or.inl rfl)⟩

/-- C3: for every lattice index `k` inside the grid, the z value written by
the frame step equals `sin(posX * carrierFreq - t * waveSpeed)` times
`(baseAmplitude * 0.6 + boidContribution)`, with the boid contribution being
the sum over all 12 boid identities of `gx * gy * edgeFade` scaled by
`baseAmplitude * boidAmp` and the startup ramp `min(1, t / rampDuration)` —
the spec-side formula `specDisplacement`. -/
theorem frameStep_z_formula (M : WaveMath R) (t : R)
    (gridWidth gridHeight : ℕ) (buf : ℕ → R) (k : ℕ)
    (hk : k < gridHeight * gridWidth) :
    frameStepPositions M t gridWidth gridHeight buf (3 * k + 2) =
      specDisplacement M (buf (3 * k)) (buf (3 * k + 1)) t := by
  unfold frameStepPositions
  rw [foldl_writeZ_z M t _ buf k (List.nodup_range _) (List.mem_range.mpr hk)]
  simp only [displacementAt, specDisplacement, calculateBoidInfluence,
    specBoidContribution, boidRampOf, BOID_RAMP_DURATION, BOIDS_PER_LANE]
  ring

/-- C3 witness: a concrete one-point grid over the rational model. -/
theorem frameStep_z_formula_witness :
    (0 : ℕ) < 1 * 1 ∧
    frameStepPositions qWaveMath 1 1 1 (fun _ => (0 : ℚ)) (3 * 0 + 2) =
      specDisplacement qWaveMath 0 0 1 :=
  ⟨Nat.one_pos,
   frameStep_z_formula qWaveMath 1 1 1 (fun _ => (0 : ℚ)) 0 Nat.one_pos⟩

/-- C5: for every point of the grid and every time `t ≥ 0`, the displacement
written to z lies within `[-m, m]` for
`m = BASE_AMPLITUDE * 0.6 + BASE_AMPLITUDE * BOID_AMP * 12`. -/
theorem frameStep_z_bounded (M : WaveMath R) (t : R)
    (gridWidth gridHeight : ℕ) (buf : ℕ → R) (k : ℕ)
    (hk : k < gridHeight * gridWidth) (ht : 0 ≤ t) :
    |frameStepPositions M t gridWidth gridHeight buf (3 * k + 2)| ≤
      BASE_AMPLITUDE R * (3 / 5) + BASE_AMPLITUDE R * BOID_AMP R * 12 := by
  unfold frameStepPositions
  rw [foldl_writeZ_z M t _ buf k (List.nodup_range _) (List.mem_range.mpr hk)]
  exact displacementAt_bounded M (buf (3 * k)) (buf (3 * k + 1)) t ht

/-- C5 witness: a concrete one-point grid at `t = 0` over the rational
model. -/
theorem frameStep_z_bounded_witness :
    (0 : ℕ) < 1 * 1 ∧ (0 : ℚ) ≤ 0 ∧
    |frameStepPositions qWaveMath 0 1 1 (fun _ => (0 : ℚ)) (3 * 0 + 2)| ≤
      BASE_AMPLITUDE ℚ * (3 / 5) + BASE_AMPLITUDE ℚ * BOID_AMP ℚ * 12 :=
  ⟨Nat.one_pos, le_refl 0,
   frameStep_z_bounded qWaveMath 0 1 1 (fun _ => (0 : ℚ)) 0 Nat.one_pos
     (le_refl 0)⟩

end FrameTheorems

section AppearanceTheorems

variable {R : Type} [LinearOrderedField R]

/-- Linear interpolation `a * (1 - t) + b * t` of two values in `[0, 1]` by a
factor in `[0, 1]` stays in `[0, 1]`. -/
theorem blend_mem_unit {a b t : R}
    (ha : 0 ≤ a) (ha1 : a ≤ 1) (hb : 0 ≤ b) (hb1 : b ≤ 1)
    (ht0 : 0 ≤ t) (ht1 : t ≤ 1) :
    0 ≤ a * (1 - t) + b * t ∧ a * (1 - t) + b * t ≤ 1 := by
  constructor
  · have h1 : 0 ≤ a * (1 - t) := mul_nonneg ha (by linarith)
    have h2 : 0 ≤ b * t := mul_nonneg hb ht0
    linarith
  · have h1 : a * (1 - t) ≤ 1 * (1 - t) :=
      mul_le_mul_of_nonneg_right ha1 (by linarith)
    have h2 : b * t ≤ 1 * t := mul_le_mul_of_nonneg_right hb1 ht0
    linarith

theorem crestOf_mem_unit (d : R) : 0 ≤ crestOf d ∧ crestOf d ≤ 1 :=
  ⟨le_max_left 0 _, max_le zero_le_one (min_le_left 1 _)⟩

theorem fogRawOf_mem_unit (d : R) : 0 ≤ fogRawOf d ∧ fogRawOf d ≤ 1 :=
  ⟨le_max_left 0 _, max_le zero_le_one (min_le_left 1 _)⟩

theorem fogEasedOf_mem (M : WaveMath R) (d : R) :
    0 ≤ fogEasedOf M d ∧ fogEasedOf M d ≤ 7 / 20 := by
  have hfr := fogRawOf_mem_unit d
  have h0 := M.pow_nonneg (fogRawOf d) (3 / 2) hfr.1
  have h1 := M.pow_le_one (fogRawOf d) (3 / 2) hfr.1 hfr.2 (by norm_num)
  unfold fogEasedOf
  constructor
  · exact mul_nonneg h0 (by norm_num)
  · calc M.pow (fogRawOf d) (3 / 2) * (7 / 20) ≤ 1 * (7 / 20) :=
        mul_le_mul_of_nonneg_right h1 (by norm_num)
      _ = 7 / 20 := one_mul _

/-- C7: however large the displacement magnitude grows, the crest factor and
the raw fog factor are clamped to `[0, 1]`, the eased fog factor
`fogFactor ^ 1.5 * 0.35` stays in `[0, 0.35]`, and every output color channel
after the crest and fog blends remains within `[0, 1]`. -/
theorem calculateDotAppearance_clamped (M : WaveMath R) (d : R) :
    (0 ≤ crestOf d ∧ crestOf d ≤ 1) ∧
    (0 ≤ fogRawOf d ∧ fogRawOf d ≤ 1) ∧
    (0 ≤ fogEasedOf M d ∧ fogEasedOf M d ≤ 7 / 20) ∧
    (0 ≤ (calculateDotAppearance M d).1 ∧ (calculateDotAppearance M d).1 ≤ 1) ∧
    (0 ≤ (calculateDotAppearance M d).2.1 ∧
      (calculateDotAppearance M d).2.1 ≤ 1) ∧
    (0 ≤ (calculateDotAppearance M d).2.2.1 ∧
      (calculateDotAppearance M d).2.2.1 ≤ 1) := by
  have hc := crestOf_mem_unit d
  have hfr := fogRawOf_mem_unit d
  have hfe := fogEasedOf_mem M d
  have hfe1 : fogEasedOf M d ≤ 1 := le_trans hfe.2 (by norm_num)
  refine ⟨hc, hfr, hfe, ?_, ?_, ?_⟩
  · simp only [calculateDotAppearance, BASE_COLOR, ACCENT_COLOR, FOG_COLOR]
    exact blend_mem_unit
      (blend_mem_unit (by norm_num) (by norm_num) (by norm_num) (by norm_num)
        hc.1 hc.2).1
      (blend_mem_unit (by norm_num) (by norm_num) (by norm_num) (by norm_num)
        hc.1 hc.2).2
      (by norm_num) (by norm_num) hfe.1 hfe1
  · simp only [calculateDotAppearance, BASE_COLOR, ACCENT_COLOR, FOG_COLOR]
    exact blend_mem_unit
      (blend_mem_unit (by norm_num) (by norm_num) (by norm_num) (by norm_num)
        hc.1 hc.2).1
      (blend_mem_unit (by norm_num) (by norm_num) (by norm_num) (by norm_num)
        hc.1 hc.2).2
      (by norm_num) (by norm_num) hfe.1 hfe1
  · simp only [calculateDotAppearance, BASE_COLOR, ACCENT_COLOR, FOG_COLOR]
    exact blend_mem_unit
      (blend_mem_unit (by norm_num) (by norm_num) (by norm_num) (by norm_num)
        hc.1 hc.2).1
      (blend_mem_unit (by norm_num) (by norm_num) (by norm_num) (by norm_num)
        hc.1 hc.2).2
      (by norm_num) (by norm_num) hfe.1 hfe1

end AppearanceTheorems

section LatticeTheorems

variable {R : Type} [LinearOrderedField R] [FloorRing R]

/-- C4 counterexample: at the claim's own concrete valid input (`spacing =
0.5`, desktop, viewport `40 x 22.5`, so a `140 x 63` grid), the two
vertically adjacent points at lattice coordinates `(0, 0)` and `(0, 1)` sit
in the leftmost column, where the one-time edge taper scales `posY` by
`edgeScale = 0.06`; their vertical distance is `0.03`, not `spacing = 0.5`. -/
theorem lattice_vertical_spacing_counterexample :
    gridWidthOf (40 : ℚ) (1 / 2) false = 140 ∧
    gridHeightOf (45 / 2 : ℚ) (1 / 2) false = 63 ∧
    (latticePoint qWaveMath 140 63 (1 / 2) 0 1).2.1 -
      (latticePoint qWaveMath 140 63 (1 / 2) 0 0).2.1 = 3 / 100 ∧
    (3 / 100 : ℚ) ≠ 1 / 2 := by
  refine ⟨?_, ?_, by norm_num [latticePoint, latticePosX, latticeScaleY, qWaveMath], by norm_num⟩
  · norm_num [gridWidthOf, latticePadding]
  · norm_num [gridHeightOf, latticePadding, heightMultiplier]
    rw [show (63 : ℤ) = 3 + 60 by norm_num]
    congr 1
    rw [Int.ceil_eq_iff]
    norm_num

/-- C4 amended: for every valid input the rebuilt lattice has exactly
`gridWidth * gridHeight` points, and the horizontal distance between
adjacent points is the constant `spacing`; the vertical distance between
adjacent points equals `spacing` times the column's one-time edge-taper
scale factor (which is `1` at the horizontal center of the lattice and
shrinks toward `0.06` at the edges), so it is not the constant `spacing`
away from the center. -/
theorem lattice_count_and_spacing (M : WaveMath R) (vw vh s : R)
    (mobile : Bool) (hs : 0 < s) (hvw : 0 < vw) (hvh : 0 < vh) :
    ((buildLatticePositions M vw vh s mobile).length : ℤ) =
      gridWidthOf vw s mobile * gridHeightOf vh s mobile ∧
    (∀ x y : ℕ,
      (latticePoint M (gridWidthOf vw s mobile) (gridHeightOf vh s mobile) s
        (x + 1) y).1 -
      (latticePoint M (gridWidthOf vw s mobile) (gridHeightOf vh s mobile) s
        x y).1 = s) ∧
    (∀ x y : ℕ,
      (latticePoint M (gridWidthOf vw s mobile) (gridHeightOf vh s mobile) s
        x (y + 1)).2.1 -
      (latticePoint M (gridWidthOf vw s mobile) (gridHeightOf vh s mobile) s
        x y).2.1 =
        s * latticeScaleY M (gridWidthOf vw s mobile) s
          (latticePosX (gridWidthOf vw s mobile) s x)) ∧
    latticeScaleY M (gridWidthOf vw s mobile) s 0 = 1 := by
  have hw : 0 ≤ gridWidthOf vw s mobile := by
    have hc : 0 < Int.ceil (vw / s) := Int.ceil_pos.mpr (div_pos hvw hs)
    unfold gridWidthOf latticePadding
    cases mobile <;> simp <;> omega
  have hh : 0 ≤ gridHeightOf vh s mobile := by
    have hm : 0 < heightMultiplier (R := R) mobile := by
      unfold heightMultiplier
      cases mobile <;> norm_num
    have hc : 0 < Int.ceil (vh * heightMultiplier (R := R) mobile / s) :=
      Int.ceil_pos.mpr (div_pos (mul_pos hvh hm) hs)
    unfold gridHeightOf latticePadding
    cases mobile <;> simp <;> omega
  refine ⟨?_, ?_, ?_, ?_⟩
  · have hlen : (buildLatticePositions M vw vh s mobile).length =
        (gridHeightOf vh s mobile).toNat * (gridWidthOf vw s mobile).toNat := by
      unfold buildLatticePositions
      simp only [List.length_flatMap, Function.comp_def, List.length_map,
        List.length_range, List.map_const', List.sum_replicate, smul_eq_mul]
    rw [hlen]
    push_cast [Int.toNat_of_nonneg hw, Int.toNat_of_nonneg hh]
    ring
  · intro x y
    simp only [latticePoint, latticePosX]
    push_cast
    ring
  · intro x y
    simp only [latticePoint, latticePosX]
    push_cast
    ring
  · simp only [latticeScaleY, abs_zero, zero_div]
    rw [min_eq_right zero_le_one, max_self, M.pow_zero_left _ (by norm_num)]
    norm_num

end LatticeTheorems

/-- C4 amended, witness at the concrete valid input `spacing = 0.5`, desktop,
viewport `40 x 22.5` over the rational model. -/
theorem lattice_count_and_spacing_witness :
    (0 : ℚ) < 1 / 2 ∧ (0 : ℚ) < 40 ∧ (0 : ℚ) < 45 / 2 ∧
    ((buildLatticePositions qWaveMath 40 (45 / 2) (1 / 2) false).length : ℤ) =
      gridWidthOf (40 : ℚ) (1 / 2) false * gridHeightOf (45 / 2 : ℚ) (1 / 2) false :=
  ⟨by norm_num, by norm_num, by norm_num,
   (lattice_count_and_spacing qWaveMath 40 (45 / 2) (1 / 2) false
     (by norm_num) (by norm_num) (by norm_num)).1⟩
